import Mathlib

/-!
Verification of the AiTranscript transcription and AI post-processing
pipeline.  The definitions below are a shallow embedding of the Python
sources under `src/`: pure functions are translated directly, file-system
and external-service effects become explicit state passing, and fallible
code returns `Except` or `Option`.
-/

namespace AiTranscript

/-! ## Python primitives used by the sources

All string manipulation is implemented by structural recursion on the
character list of the string, so every definition reduces in the kernel
and concrete instances can be settled by `decide`. -/

/-- `str.strip()` (whitespace at both ends removed) on a character list. -/
def pyStripList (cs : List Char) : List Char :=
  ((cs.dropWhile Char.isWhitespace).reverse.dropWhile Char.isWhitespace).reverse

/-- Models Python `str.strip()` (ASCII whitespace). -/
def pyStrip (s : String) : String := String.mk (pyStripList s.toList)

/-- `str.split(sep)` on a character list (single-character separator):
splits on every occurrence, keeping empty groups, as Python does. -/
def splitOnChar (sep : Char) : List Char → List (List Char)
  | [] => [[]]
  | c :: rest =>
    let r := splitOnChar sep rest
    if c = sep then [] :: r
    else
      match r with
      | [] => [[c]]
      | g :: gs => (c :: g) :: gs

/-- Models Python `str.split(sep)` for a single-character separator. -/
def pySplit (sep : Char) (s : String) : List String :=
  (splitOnChar sep s.toList).map String.mk

/-- Models Python `str.startswith(p)`. -/
def pyStartsWith (p s : String) : Bool :=
  p.toList.isPrefixOf s.toList

/-- Numeric value of a list of decimal digit characters. -/
def digitsVal (cs : List Char) : Nat :=
  cs.foldl (fun acc c => acc * 10 + (c.toNat - ('0').toNat)) 0

/-- Models CPython `int(s)` on decimal literals: optional surrounding
whitespace, optional sign, then one or more ASCII digits (underscore
digit separators are not modelled). Returns `none` where `int` raises
`ValueError`. -/
def pyInt (s : String) : Option Int :=
  match pyStripList s.toList with
  | '-' :: ds =>
    if !ds.isEmpty && ds.all Char.isDigit then some (-(digitsVal ds : Int)) else none
  | '+' :: ds =>
    if !ds.isEmpty && ds.all Char.isDigit then some ((digitsVal ds : Int)) else none
  | ds =>
    if !ds.isEmpty && ds.all Char.isDigit then some ((digitsVal ds : Int)) else none

/-- Models Python `str.isdigit()` on ASCII input: nonempty and all
decimal digits. -/
def pyIsdigit (s : String) : Bool :=
  !s.isEmpty && s.toList.all Char.isDigit

/-- Models Python `str.lower()` on ASCII input. -/
def pyLower (s : String) : String :=
  String.mk (s.toList.map Char.toLower)

/-! ## `src/utils/time_utils.py` -/

/-- `parse_time_string` from `src/utils/time_utils.py`: parses `"SS"`,
`"MM:SS"` or `"HH:MM:SS"` into seconds, `none` on invalid format. -/
def parse_time_string (time_str : String) : Option Int :=
  if time_str = "" then none
  else
    let t := pyStrip time_str
    if pyIsdigit t then some ((digitsVal t.toList : Int))
    else
      match pySplit ':' t with
      | [p1, p2] =>
        match pyInt p1, pyInt p2 with
        | some minutes, some seconds => some (minutes * 60 + seconds)
        | _, _ => none
      | [p1, p2, p3] =>
        match pyInt p1, pyInt p2, pyInt p3 with
        | some hours, some minutes, some seconds =>
          some (hours * 3600 + minutes * 60 + seconds)
        | _, _, _ => none
      | _ => none

/-! ## `src/utils/validators.py` — `validate_audio_file` -/

/-- The `stat`-level view of a path that `validate_audio_file` consults:
`path.exists()`, `path.is_file()`, `path.suffix`, `path.stat().st_size`. -/
structure FileStat where
  px : Bool
  isf : Bool
  suffix : String
  size : Nat
deriving DecidableEq, Repr

/-- `supported_formats` set literal from `validate_audio_file` (written
here in the literal's order; Python set iteration order is unspecified,
which only affects the order of names inside the error message). -/
def supported_formats : List String :=
  [".mp3", ".wav", ".m4a", ".ogg", ".flac", ".aac"]

/-- Maximum audio size from `validate_audio_file`: `100 * 1024 * 1024`. -/
def max_size_bytes : Nat := 100 * 1024 * 1024

/-- Error message for an unsupported extension, from `validate_audio_file`. -/
def unsupportedFormatMsg (ext : String) : String :=
  "Unsupported audio format: " ++ ext ++ ". Supported formats: " ++
    String.intercalate ", " supported_formats

/-- `file_size / (1024 * 1024)` rendered with one decimal digit
(`{size_mb:.1f}`), modelled as exact rational rounding-half-up of tenths
of a megabyte. -/
def sizeMbTenths (size : Nat) : Nat :=
  (size * 10 + 524288) / 1048576

/-- Error message for an oversized file, from `validate_audio_file`. -/
def sizeExceedsMsg (size : Nat) : String :=
  "File size (" ++ toString (sizeMbTenths size / 10) ++ "." ++
    toString (sizeMbTenths size % 10) ++
    "MB) exceeds maximum allowed size (100MB)"

/-- `validate_audio_file` from `src/utils/validators.py`: checks
existence, that the path is a file, supported (lower-cased) extension,
non-emptiness and the 100 MB bound, returning `(is_valid, error_message)`. -/
def validate_audio_file (f : FileStat) (file_path : String) : Bool × String :=
  if !f.px then (false, "File does not exist: " ++ file_path)
  else if !f.isf then (false, "Path is not a file: " ++ file_path)
  else
    let file_extension := pyLower f.suffix
    if !supported_formats.contains file_extension then
      (false, unsupportedFormatMsg file_extension)
    else if f.size = 0 then (false, "File is empty")
    else if f.size > max_size_bytes then (false, sizeExceedsMsg f.size)
    else (true, "")

/-! ## `src/services/ai_service.py` — `AICleanupService`

The outbound provider call (`_call_api`, dispatching to Ollama or the
OpenAI client) is modelled by an abstract response function
`respond : systemPrompt → userMessage → response` plus an explicit
counter of backend invocations, so that "the backend is invoked zero
times" is a statement about the returned counter. -/

/-- Character set of the `lstrip('0123456789.-) ')` call in
`generate_key_points`. -/
def enumStripChars : List Char :=
  ['0', '1', '2', '3', '4', '5', '6', '7', '8', '9', '.', '-', ')', ' ']

/-- Models `line.lstrip('0123456789.-) ')`. -/
def pyLstripEnum (s : String) : String :=
  String.mk (s.toList.dropWhile (fun c => enumStripChars.contains c))

/-- Response parsing of `generate_key_points` from
`src/services/ai_service.py` lines 314–326: split on newlines, keep
nonblank lines not starting with `#`, strip enumeration markers and
whitespace, then keep only points longer than 10 characters. -/
def generate_key_points_parse (response : String) : List String :=
  let key_points :=
    ((pySplit '\n' response).filter
      (fun line => pyStrip line ≠ "" && !(pyStartsWith "#" (pyStrip line)))).map
      (fun line => pyStrip (pyLstripEnum (pyStrip line)))
  key_points.filter (fun point => point.length > 10)

/-- An "already-clean" model-response line in the sense of the
key-points idempotence property: stripped of surrounding whitespace,
nonempty, no heading marker, no leading enumeration characters
(digits, `.`, `-`, `)`, space), and strictly longer than 10
characters. -/
def cleanLine (line : String) : Bool :=
  (pyStrip line == line) && (decide (line ≠ "")) &&
  (!(pyStartsWith "#" line)) &&
  (match line.toList with
   | [] => false
   | c :: _ => !(enumStripChars.contains c)) &&
  (decide (line.length > 10))

/-- `style_instructions` dictionary from `summarize_text`. -/
def style_instructions : List (String × String) :=
  [("concise", "Provide a concise, well-structured summary that captures the main ideas."),
   ("detailed", "Provide a detailed, comprehensive summary that covers all important points."),
   ("bullet", "Provide a summary in bullet point format, highlighting key information.")]

/-- `tone_instructions` dictionary from `refine_message`. -/
def tone_instructions : List (String × String) :=
  [("professional", "professional, clear, and concise while maintaining warmth"),
   ("friendly", "friendly, approachable, and warm while staying clear"),
   ("formal", "formal, respectful, and polished"),
   ("casual", "casual, relaxed, and conversational")]

/-- `summarize_text` from `src/services/ai_service.py`: validates that
the text is neither empty nor whitespace-only, then builds the prompts
and calls the backend once.  `respond` models `_call_api`; `calls`
counts backend invocations. -/
def summarize_text (respond : String → String → String) (text : String)
    (max_length : Option Nat) (style : String) (calls : Nat) :
    Except String String × Nat :=
  if text = "" || pyStrip text = "" then
    (.error "Text to summarize cannot be empty", calls)
  else
    let instruction :=
      ((style_instructions.lookup style).getD
        "Provide a concise, well-structured summary that captures the main ideas.")
    let system_prompt :=
      "You are an expert at summarizing transcripts and extracting key information.\n" ++
        instruction ++
        "\nFocus on the most important information and maintain clarity."
    let user_message := "Please summarize the following transcript:\n\n" ++ text
    let user_message :=
      match max_length with
      | some n => user_message ++ "\n\nKeep the summary under " ++ toString n ++ " words."
      | none => user_message
    (.ok (respond system_prompt user_message), calls + 1)

/-- `refine_message` from `src/services/ai_service.py`: validates that
the text is neither empty nor whitespace-only, then builds the
tone-specific prompts and calls the backend once. -/
def refine_message (respond : String → String → String) (text : String)
    (tone : String) (recipient_context : Option String) (calls : Nat) :
    Except String String × Nat :=
  if text = "" || pyStrip text = "" then
    (.error "Text to refine cannot be empty", calls)
  else
    let tone_desc :=
      ((tone_instructions.lookup tone).getD
        "professional, clear, and concise while maintaining warmth")
    let system_prompt :=
      "You are an expert communication assistant that helps people express themselves better.\nYour task is to take what someone said (often from a voice recording) and rephrase it to be " ++
        tone_desc ++
        ".\n\nGuidelines:\n- Preserve the original intent and key points\n- Remove filler words, repetitions, and unclear phrases\n- Improve grammar and sentence structure\n- Make the message clear, coherent, and well-organized\n- Maintain the speaker's authentic voice while enhancing clarity\n- Ensure the message is appropriate for the intended recipient"
    let user_message :=
      "Please refine and rephrase the following message to make it better for communication:\n\n" ++
        text
    let user_message :=
      match recipient_context with
      | some rc => user_message ++ "\n\nContext: This message is for " ++ rc ++ "."
      | none => user_message
    (.ok (respond system_prompt user_message), calls + 1)

/-! ## `src/common/audio_service.py` — `AudioTranscriptionService`

Whisper inference and the pydub duration probe are external effects;
they enter the embedding as parameters (`probe`, `transcribeFileImpl`).
Times are modelled as exact rationals. -/

/-- A Whisper transcription segment as consumed by `transcribe_file`:
only its `"end"` key is read (via `last_segment.get("end", 0.0)`), so
the model keeps the end time, optional as in a dictionary lookup. -/
structure WhisperSegment where
  start : ℚ
  endTime : Option ℚ
deriving DecidableEq

/-- The response dictionary assembled at the end of `transcribe_file`. -/
structure TranscribeResult where
  text : String
  language : String
  segments : List WhisperSegment
  duration : ℚ
deriving DecidableEq

/-- The duration computation of `transcribe_file` (lines 147–157):
`get_audio_duration`'s outcome is `probe`; on probe failure the duration
falls back to the last segment's `"end"` value, defaulting to `0.0`,
and to `0.0` when there are no segments. -/
def transcribe_duration (probe : Except String ℚ)
    (segments : List WhisperSegment) : ℚ :=
  match probe with
  | .ok d => d
  | .error _ =>
    match segments.getLast? with
    | none => 0
    | some last_segment => last_segment.endTime.getD 0

/-- The response assembly of `transcribe_file` (lines 158–164):
stripped text, detected language defaulting to `"unknown"`, the raw
segments, and the duration from `transcribe_duration`. -/
def transcribe_response (rawText : String) (language : Option String)
    (segments : List WhisperSegment) (probe : Except String ℚ) :
    TranscribeResult :=
  { text := pyStrip rawText
    language := language.getD "unknown"
    segments := segments
    duration := transcribe_duration probe segments }

/-- A captions-API transcript entry as consumed by
`src/services/youtube_service.py` `get_transcript`: `entry['start']`
and `entry.get('duration', 0)`. -/
structure CaptionEntry where
  start : ℚ
  duration : Option ℚ
deriving DecidableEq

/-- The duration computation of the captions path
(`src/services/youtube_service.py` lines 270–274): last segment's start
plus its duration, `0.0` when there are no segments. -/
def captions_duration (transcript_data : List CaptionEntry) : ℚ :=
  match transcript_data.getLast? with
  | none => 0
  | some last_segment => last_segment.start + last_segment.duration.getD 0

/-! ### Model cache (`load_model`, lines 45–101)

The class-level `_model_cache` and the calls made to
`whisper.load_model` become explicit state.  Loaded model handles are
identified by distinct natural numbers, so Python object identity is
equality of the identifier: each `whisper.load_model` invocation yields
a fresh handle (the number of loads performed so far). -/

/-- State of the process-wide Whisper model cache: the
`_model_cache` dictionary (cache key to model handle) and the log of
`whisper.load_model` invocations, as `(model_size, device)` pairs. -/
structure WhisperState where
  cache : List (String × Nat)
  loadLog : List (String × String)
deriving DecidableEq

/-- `valid_models` from `AudioTranscriptionService.__init__`. -/
def valid_models : List String := ["tiny", "base", "small", "medium", "large"]

/-- The model-size coercion in `__init__` (lines 56–59): an invalid size
defaults to `"base"`. -/
def init_model_size (model_size : String) : String :=
  if model_size ∈ valid_models then model_size else "base"

/-- `load_model` (lines 69–101): compute the cache key
`f"{model_size}_{device}"`; on a cache hit return the cached handle and
leave the state unchanged; on a miss invoke `whisper.load_model`
(logging the invocation and producing a fresh handle) and cache it. -/
def load_model (model_size device : String) (s : WhisperState) :
    Nat × WhisperState :=
  let cache_key := model_size ++ "_" ++ device
  match s.cache.lookup cache_key with
  | some m => (m, s)
  | none =>
    let m := s.loadLog.length
    (m, ⟨(cache_key, m) :: s.cache, s.loadLog ++ [(model_size, device)]⟩)

/-- A process lifetime: a sequence of `(model_size, device)` service
constructions each followed by a `load_model` call, starting from the
empty class-level cache.  `init_model_size` applies the constructor's
coercion. -/
def runLoadCalls (calls : List (String × String)) : WhisperState :=
  calls.foldl (fun s p => (load_model (init_model_size p.1) p.2 s).2) ⟨[], []⟩

/-- Invariant of the model cache maintained by `load_model`: every
logged `whisper.load_model` call used a validated model size, and a
cache entry exists for the key of a supported `(tier, device)` pair
exactly when that pair's load has been performed. -/
def CacheInv (s : WhisperState) : Prop :=
  (∀ p ∈ s.loadLog, p.1 ∈ valid_models) ∧
  (∀ t d : String, t ∈ valid_models →
    ((s.cache.lookup (t ++ "_" ++ d)).isSome ↔ (t, d) ∈ s.loadLog))

/-! ### Temporary-file scope (`transcribe_audio_data`, lines 176–207)

The filesystem is a list of `(path, bytes)` entries.  `temp_file_context`
is imported from `src/utils/file_handler` but that module, as present
under `src/`, does not define it, so its scoped semantics is modelled
from the spec. -/

/-- Filesystem state: existing files as `(path, content)` pairs. -/
abbrev FS := List (String × List Nat)

/-- Whether a path currently exists on the filesystem. -/
def fsHas (fs : FS) (path : String) : Bool :=
  fs.any (fun e => e.1 == path)

/-- Modelled from the spec: `temp_file_context` (imported by
`audio_service.py` from `src/utils/file_handler`, where it is absent) —
"given raw bytes and a desired file-extension hint, produce a filesystem
path to a freshly created, exclusively-owned file containing those
bytes, and guarantee its deletion when the caller's scope ends — even if
the caller's subsequent processing fails"; the scoped form "deletes
unconditionally at block-exit".  The allocator's fresh path choice is
the parameter `tempPath`; the body runs on the filesystem holding the
new file, and at block-exit the file is removed on every exit path. -/
def temp_file_context {A : Type} (audio_bytes : List Nat) (tempPath : String)
    (body : String → FS → Except String A × FS) (fs : FS) :
    Except String A × FS :=
  let fs1 := (tempPath, audio_bytes) :: fs
  let r := body tempPath fs1
  (r.1, r.2.filter (fun e => e.1 ≠ tempPath))

/-- `transcribe_audio_data` (lines 176–207): materializes the bytes via
`temp_file_context`, transcribes the temporary file with
`self.transcribe_file` (abstracted as `transcribeFileImpl`), and wraps
any error with context.  The temporary filename
`f"audio{file_extension}"` inside the allocator's fresh directory is
abstracted as `tempPath`. -/
def transcribe_audio_data
    (transcribeFileImpl : String → Option String → FS → Except String TranscribeResult × FS)
    (audio_bytes : List Nat) (language : Option String) (tempPath : String)
    (fs : FS) : Except String TranscribeResult × FS :=
  let r := temp_file_context audio_bytes tempPath
    (fun temp_file_path fs1 => transcribeFileImpl temp_file_path language fs1) fs
  match r.1 with
  | .ok v => (.ok v, r.2)
  | .error e => (.error ("Error transcribing audio data: " ++ e), r.2)

/-! ## `src/utils/validators.py` — YouTube URL validation

The four `re.match` patterns of `validate_youtube_url` and the two
`re.search` patterns of `extract_video_id_from_url` are translated into
character-level matchers (ASCII scope for `\w`). -/

/-- Models the regex class `\w` on ASCII input. -/
def isWordChar (c : Char) : Bool := c.isAlphanum || c = '_'

/-- Models the regex class `[\w-]`. -/
def isWordDash (c : Char) : Bool := isWordChar c || c = '-'

/-- Drops a literal from the front of the string, `none` when it is not
there. -/
def dropLit (lit s : String) : Option String :=
  if pyStartsWith lit s then some (String.mk (s.toList.drop lit.toList.length))
  else none

/-- `https?` at the start of the string: literal `http` then an optional
`s`. -/
def afterScheme (s : String) : Option String :=
  match dropLit "http" s with
  | none => none
  | some r =>
    some (match r.toList with
          | 's' :: rest => String.mk rest
          | _ => r)

/-- `[\w-]+` (at least one character) at the current position;
`re.match` only anchors the start, so the rest of the string is free. -/
def hasWordDashHead (s : String) : Bool :=
  match s.toList with
  | [] => false
  | c :: _ => isWordDash c

/-- `^https?://(www\.)?youtube\.com/watch\?v=[\w-]+` (the `(www\.)?`
alternative is the explicit disjunction of its two branches). -/
def matchYoutubeWatch (url : String) : Bool :=
  match afterScheme url with
  | none => false
  | some r =>
    match dropLit "://" r with
    | none => false
    | some r2 =>
      let tail (t : String) : Bool :=
        match dropLit "youtube.com/watch?v=" t with
        | none => false
        | some rest => hasWordDashHead rest
      tail r2 ||
        (match dropLit "www." r2 with
         | none => false
         | some r3 => tail r3)

/-- `^https?://youtu\.be/[\w-]+`. -/
def matchYoutuBe (url : String) : Bool :=
  match afterScheme url with
  | none => false
  | some r =>
    match dropLit "://youtu.be/" r with
    | none => false
    | some rest => hasWordDashHead rest

/-- `^https?://m\.youtube\.com/watch\?v=[\w-]+`. -/
def matchMobileWatch (url : String) : Bool :=
  match afterScheme url with
  | none => false
  | some r =>
    match dropLit "://m.youtube.com/watch?v=" r with
    | none => false
    | some rest => hasWordDashHead rest

/-- `^https?://youtube\.com/watch\?v=[\w-]+`. -/
def matchBareWatch (url : String) : Bool :=
  match afterScheme url with
  | none => false
  | some r =>
    match dropLit "://youtube.com/watch?v=" r with
    | none => false
    | some rest => hasWordDashHead rest

/-- `validate_youtube_url` from `src/utils/validators.py` (lines 22–53):
falsy or non-matching input is rejected; any of the four patterns
matching at the start accepts. -/
def validate_youtube_url (url : String) : Bool :=
  if url = "" then false
  else
    matchYoutubeWatch url || matchYoutuBe url || matchMobileWatch url ||
      matchBareWatch url

/-- `re.search(r"[?&]v=([^&]+)", url)`: leftmost position where `?` or
`&` is followed by `v=` and at least one non-`&` character; the capture
is the maximal run of non-`&` characters. -/
def searchVParam : List Char → Option (List Char)
  | [] => none
  | c :: rest =>
    if c = '?' || c = '&' then
      match rest with
      | 'v' :: '=' :: tail =>
        match tail.takeWhile (fun x => x ≠ '&') with
        | [] => searchVParam rest
        | cap => some cap
      | _ => searchVParam rest
    else searchVParam rest

/-- `re.search(r"youtu\.be/([^?&]+)", url)`: leftmost occurrence of the
literal `youtu.be/` followed by at least one character that is neither
`?` nor `&`; the capture is the maximal such run. -/
def searchYoutuBeId (cs : List Char) : Option (List Char) :=
  match cs with
  | [] => none
  | _ :: rest =>
    if ("youtu.be/".toList).isPrefixOf cs then
      match (cs.drop 9).takeWhile (fun x => x ≠ '?' && x ≠ '&') with
      | [] => searchYoutuBeId rest
      | cap => some cap
    else searchYoutuBeId rest

/-- `extract_video_id_from_url` from `src/utils/validators.py`
(lines 56–79): `none` for an invalid URL, otherwise the first capture of
the `v=` query parameter, else of the `youtu.be/` path. -/
def extract_video_id_from_url (url : String) : Option String :=
  if !validate_youtube_url url then none
  else
    match searchVParam url.toList with
    | some cap => some (String.mk cap)
    | none =>
      match searchYoutuBeId url.toList with
      | some cap => some (String.mk cap)
      | none => none

/-! ## `src/youtube/provider.py` — `YouTubeService` -/

/-- `YouTubeService.extract_video_id` (lines 49–70): raises `ValueError`
for an invalid URL or when no video id can be extracted (`if not
video_id` also catches an empty string). -/
def yt_extract_video_id (url : String) : Except String String :=
  if !validate_youtube_url url then .error ("Invalid YouTube URL: " ++ url)
  else
    match extract_video_id_from_url url with
    | none => .error ("Could not extract video ID from URL: " ++ url)
    | some video_id =>
      if video_id = "" then .error ("Could not extract video ID from URL: " ++ url)
      else .ok video_id

/-- External calls the provider can make.  `captionsApi` is the
youtube-transcript-api consultation (present in the superseded
`src/services/youtube_service.py` variant, absent from the final
provider); the other two are the yt-dlp download and the Whisper
transcription. -/
inductive ExtCall where
  | captionsApi (video_id : String)
  | downloadAudio (video_id : String) (start_time end_time : Option String)
  | whisperTranscribe (path : String) (language : Option String)
deriving DecidableEq

/-- Discriminator for captions-API calls. -/
def ExtCall.isCaptions : ExtCall → Bool
  | .captionsApi _ => true
  | _ => false

/-- The transcription result shape returned by the provider: the
`transcribe_file` dictionary extended with `source`, `video_id` and
`title`. -/
structure YTResult where
  base : TranscribeResult
  source : String
  video_id : String
  title : String
deriving DecidableEq

/-- The external world the provider runs against: outcome of the
yt-dlp download (audio path and title) and of Whisper transcription. -/
structure YTEnv where
  downloadAudio : String → Option String → Option String →
    Except String (String × String)
  transcribeFile : String → Option String → Except String TranscribeResult

/-- `YouTubeService._transcribe_with_whisper` (lines 156–227): requires
the audio service, downloads the clip (`_download_youtube_audio` wraps
download errors), transcribes it, tags the result, and wraps failures
with the video id; alongside the result, the trace of external calls
made. -/
def transcribe_with_whisper (env : YTEnv) (hasAudioService : Bool)
    (video_id : String) (language : Option String)
    (start_time end_time : Option String) :
    Except String YTResult × List ExtCall :=
  if !hasAudioService then
    (.error "Audio service not available for fallback transcription", [])
  else
    match env.downloadAudio video_id start_time end_time with
    | .error e =>
      (.error ("Whisper fallback failed for video " ++ video_id ++ ": " ++
        ("Failed to download YouTube audio: " ++ e)),
       [.downloadAudio video_id start_time end_time])
    | .ok (audio_file, video_title) =>
      match env.transcribeFile audio_file language with
      | .error e =>
        (.error ("Whisper fallback failed for video " ++ video_id ++ ": " ++ e),
         [.downloadAudio video_id start_time end_time,
          .whisperTranscribe audio_file language])
      | .ok result =>
        (.ok { base := result, source := "whisper_fallback",
               video_id := video_id, title := video_title },
         [.downloadAudio video_id start_time end_time,
          .whisperTranscribe audio_file language])

/-- `YouTubeService.get_transcript` (lines 229–291): always takes the
audio-download-plus-Whisper path (`use_fallback` is accepted for
compatibility and ignored), picks the Whisper language hint from the
language list, retags the provenance as `"whisper_audio"`, and wraps
errors with the video id. -/
def yt_get_transcript (env : YTEnv) (hasAudioService : Bool)
    (video_id : String) (languages : Option (List String))
    (use_fallback : Bool) (start_time end_time : Option String) :
    Except String YTResult × List ExtCall :=
  let langs := languages.getD ["en"]
  if !hasAudioService then
    (.error ("Error processing video " ++ video_id ++ ": " ++
      "Audio service not available for transcription"), [])
  else
    let whisper_lang :=
      match langs with
      | [] => none
      | l :: _ => if l ≠ "en" then some l else none
    let r := transcribe_with_whisper env hasAudioService video_id whisper_lang
      start_time end_time
    match r.1 with
    | .error e =>
      (.error ("Error processing video " ++ video_id ++ ": " ++ e), r.2)
    | .ok result =>
      (.ok { result with source := "whisper_audio" }, r.2)

/-! ## Theorems -/

/-- C9: Time-window parsing maps `"1:30"` to 90 seconds, `"90"` to 90
seconds, `"1:01:30"` to 3690 seconds, and `"abc"` to the invalid/`none`
result. -/
theorem parse_time_string_scenarios :
    parse_time_string "1:30" = some 90 ∧ parse_time_string "90" = some 90 ∧
    parse_time_string "1:01:30" = some 3690 ∧ parse_time_string "abc" = none := by
  refine ⟨by decide, by decide, by decide, by decide⟩

/-- C8: `extract_video_id` maps the remote reference
`"https://youtu.be/abc123"` to the identifier `"abc123"`; the string
`"not a url"` is not a recognized reference; and every input the URL
validator rejects makes `extract_video_id` fail with the
invalid-reference error. -/
theorem extract_video_id_scenarios :
    yt_extract_video_id "https://youtu.be/abc123" = .ok "abc123" ∧
    validate_youtube_url "not a url" = false ∧
    ∀ url : String, validate_youtube_url url = false →
      yt_extract_video_id url = .error ("Invalid YouTube URL: " ++ url) := by
  refine ⟨rfl, by decide, fun url h => ?_⟩
  unfold yt_extract_video_id
  simp [h]

/-- Witness for C8: the non-matching string `"not a url"` fails with the
invalid-reference error. -/
theorem extract_video_id_scenarios_witness :
    yt_extract_video_id "not a url" =
      .error ("Invalid YouTube URL: " ++ "not a url") :=
  extract_video_id_scenarios.2.2 "not a url" extract_video_id_scenarios.2.1

/-- C5: the duration of a `transcribe_file` result equals the probe's
value when the audio-duration probe succeeds; on probe failure it equals
the last segment's end time; and on probe failure with no segments it
equals 0. -/
theorem transcribe_duration_cases (rawText : String) (language : Option String)
    (segments : List WhisperSegment) (probe : Except String ℚ) :
    (∀ d, probe = .ok d →
      (transcribe_response rawText language segments probe).duration = d) ∧
    (∀ e s, probe = .error e → segments.getLast? = some s →
      (transcribe_response rawText language segments probe).duration =
        s.endTime.getD 0) ∧
    (∀ e, probe = .error e → segments = [] →
      (transcribe_response rawText language segments probe).duration = 0) := by
  refine ⟨fun d hd => ?_, fun e s he hs => ?_, fun e he hnil => ?_⟩
  · subst hd; rfl
  · subst he
    simp [transcribe_response, transcribe_duration, hs]
  · subst he; subst hnil; rfl

/-- Witness for C5: the three duration cases at concrete inputs. -/
theorem transcribe_duration_cases_witness :
    (transcribe_response "hi" (some "en") [⟨0, some 5⟩] (.ok 7)).duration = 7 ∧
    (transcribe_response "hi" (some "en") [⟨0, some 5⟩] (.error "boom")).duration = 5 ∧
    (transcribe_response "hi" (some "en") [] (.error "boom")).duration = 0 :=
  ⟨(transcribe_duration_cases "hi" (some "en") [⟨0, some 5⟩] (.ok 7)).1 7 rfl,
   (transcribe_duration_cases "hi" (some "en") [⟨0, some 5⟩] (.error "boom")).2.1
     "boom" ⟨0, some 5⟩ rfl rfl,
   (transcribe_duration_cases "hi" (some "en") [] (.error "boom")).2.2 "boom" rfl rfl⟩

/-- C6: for empty or whitespace-only input text, `summarize_text` and
`refine_message` both fail with the input-validation error and leave the
backend call counter unchanged (the backend is invoked zero times). -/
theorem empty_text_fails_before_backend
    (respond1 respond2 : String → String → String) (text : String)
    (max_length : Option Nat) (style tone : String)
    (recipient_context : Option String) (calls1 calls2 : Nat)
    (h : pyStrip text = "") :
    summarize_text respond1 text max_length style calls1 =
      (.error "Text to summarize cannot be empty", calls1) ∧
    refine_message respond2 text tone recipient_context calls2 =
      (.error "Text to refine cannot be empty", calls2) := by
  constructor
  · unfold summarize_text; simp [h]
  · unfold refine_message; simp [h]

/-- Witness for C6: whitespace-only input is rejected with the backend
counter untouched. -/
theorem empty_text_fails_before_backend_witness :
    summarize_text (fun _ _ => "summary") "   " none "concise" 0 =
      (.error "Text to summarize cannot be empty", 0) ∧
    refine_message (fun _ _ => "refined") "   " "professional" none 0 =
      (.error "Text to refine cannot be empty", 0) :=
  empty_text_fails_before_backend (fun _ _ => "summary") (fun _ _ => "refined")
    "   " none "concise" "professional" none 0 0 (by decide)

/-- C1: after `transcribe_audio_data`'s temp-file scope exits — whether
the enclosed transcription returns normally or fails — the temporary
file created for the bytes no longer exists on the filesystem. -/
theorem transcribe_audio_data_temp_deleted
    (transcribeFileImpl : String → Option String → FS → Except String TranscribeResult × FS)
    (audio_bytes : List Nat) (language : Option String) (tempPath : String)
    (fs : FS) :
    fsHas (transcribe_audio_data transcribeFileImpl audio_bytes language
      tempPath fs).2 tempPath = false := by
  have hfilter : ∀ l : FS,
      fsHas (l.filter (fun e => e.1 ≠ tempPath)) tempPath = false := by
    intro l
    rw [fsHas, List.any_eq_false]
    intro x hx
    rw [List.mem_filter] at hx
    simpa using of_decide_eq_true hx.2
  unfold transcribe_audio_data temp_file_context
  cases h : (transcribeFileImpl tempPath language ((tempPath, audio_bytes) :: fs)).1 with
  | ok v => simp only [h]; exact hfilter _
  | error e => simp only [h]; exact hfilter _

/-- C7 counterexample: a `transcribe_file` result whose duration probe
succeeds with `0.0` (as `get_audio_duration` does when pydub is
unavailable) while the last Whisper segment ends at 5 violates
"duration ≥ end time of the last segment". -/
theorem duration_ge_last_end_counterexample :
    (transcribe_response "hi" (some "en") [⟨0, some 5⟩] (.ok 0)).duration = 0 ∧
    (([⟨0, some 5⟩] : List WhisperSegment).getLast? = some ⟨0, some 5⟩) ∧
    ¬ ((⟨0, some 5⟩ : WhisperSegment).endTime.getD 0 ≤
        (transcribe_response "hi" (some "en") [⟨0, some 5⟩] (.ok 0)).duration) := by
  refine ⟨rfl, rfl, by decide⟩

/-- C7 amended: in a `transcribe_file` result the duration is ≥ the last
segment's end time whenever the duration probe failed (the fallback
path) or the probe reported at least that end time; in the captions path
of `youtube_service.get_transcript`, the duration equals the last
entry's start plus its duration. -/
theorem duration_ge_last_end_amended :
    (∀ (rawText : String) (language : Option String)
      (segments : List WhisperSegment) (probe : Except String ℚ)
      (s : WhisperSegment), segments.getLast? = some s →
      ((∃ e, probe = .error e) ∨ ∃ d, probe = .ok d ∧ s.endTime.getD 0 ≤ d) →
      s.endTime.getD 0 ≤
        (transcribe_response rawText language segments probe).duration) ∧
    (∀ (transcript_data : List CaptionEntry) (c : CaptionEntry),
      transcript_data.getLast? = some c →
      captions_duration transcript_data = c.start + c.duration.getD 0) := by
  constructor
  · rintro rawText language segments probe s hs (⟨e, he⟩ | ⟨d, hd, hle⟩)
    · subst he
      simp [transcribe_response, transcribe_duration, hs]
    · subst hd
      simpa [transcribe_response, transcribe_duration] using hle
  · intro transcript_data c hc
    simp [captions_duration, hc]

/-- Witness for C7 amended: the fallback path at a concrete result and
the captions duration at a concrete transcript. -/
theorem duration_ge_last_end_amended_witness :
    ((⟨0, some 5⟩ : WhisperSegment).endTime.getD 0 ≤
      (transcribe_response "hi" (some "en") [⟨0, some 5⟩] (.error "boom")).duration) ∧
    captions_duration [⟨2, some 3⟩] =
      (⟨2, some 3⟩ : CaptionEntry).start + (⟨2, some 3⟩ : CaptionEntry).duration.getD 0 :=
  ⟨duration_ge_last_end_amended.1 "hi" (some "en") [⟨0, some 5⟩] (.error "boom")
      ⟨0, some 5⟩ rfl (Or.inl ⟨"boom", rfl⟩),
   duration_ge_last_end_amended.2 [⟨2, some 3⟩] ⟨2, some 3⟩ rfl⟩

/-- C3: an existing regular file with a supported (lower-cased)
extension and size in (0, 100 MB] is accepted with an empty error
message; an unsupported extension, emptiness, or an oversized file is
rejected, with the error message naming the violated constraint
(format, emptiness or size, in the code's checking order). -/
theorem validate_audio_file_spec (f : FileStat) (file_path : String) :
    (f.px = true → f.isf = true →
      pyLower f.suffix ∈ supported_formats →
      0 < f.size → f.size ≤ max_size_bytes →
      validate_audio_file f file_path = (true, "")) ∧
    (f.px = true → f.isf = true →
      pyLower f.suffix ∉ supported_formats →
      validate_audio_file f file_path =
        (false, unsupportedFormatMsg (pyLower f.suffix))) ∧
    (f.px = true → f.isf = true →
      pyLower f.suffix ∈ supported_formats → f.size = 0 →
      validate_audio_file f file_path = (false, "File is empty")) ∧
    (f.px = true → f.isf = true →
      pyLower f.suffix ∈ supported_formats →
      max_size_bytes < f.size →
      validate_audio_file f file_path = (false, sizeExceedsMsg f.size)) ∧
    (f.px = true → f.isf = true →
      (pyLower f.suffix ∉ supported_formats ∨ f.size = 0 ∨
        max_size_bytes < f.size) →
      (validate_audio_file f file_path).1 = false) := by
  refine ⟨fun hx hf hext hpos hle => ?_, fun hx hf hext => ?_,
    fun hx hf hext hz => ?_, fun hx hf hext hgt => ?_, fun hx hf hviol => ?_⟩
  · have h0 : f.size ≠ 0 := Nat.pos_iff_ne_zero.mp hpos
    have h1 : ¬ f.size > max_size_bytes := Nat.not_lt.mpr hle
    simp [validate_audio_file, hx, hf, hext, h0, h1]
  · simp [validate_audio_file, hx, hf, hext]
  · simp [validate_audio_file, hx, hf, hext, hz]
  · have h0 : f.size ≠ 0 := by
      intro h; rw [h] at hgt; exact absurd hgt (by decide)
    simp [validate_audio_file, hx, hf, hext, h0, hgt]
  · rcases hviol with hext | hz | hgt
    · simp [validate_audio_file, hx, hf, hext]
    · by_cases hext : pyLower f.suffix ∈ supported_formats
      · simp [validate_audio_file, hx, hf, hext, hz]
      · simp [validate_audio_file, hx, hf, hext]
    · by_cases hext : pyLower f.suffix ∈ supported_formats
      · have h0 : f.size ≠ 0 := by
          intro h; rw [h] at hgt; exact absurd hgt (by decide)
        simp [validate_audio_file, hx, hf, hext, h0, hgt]
      · simp [validate_audio_file, hx, hf, hext]

/-- Witness for C3: the accepting case and the three rejection reasons
at concrete file stats. -/
theorem validate_audio_file_spec_witness :
    validate_audio_file ⟨true, true, ".MP3", 500⟩ "a.MP3" = (true, "") ∧
    validate_audio_file ⟨true, true, ".txt", 500⟩ "a.txt" =
      (false, unsupportedFormatMsg (pyLower ".txt")) ∧
    validate_audio_file ⟨true, true, ".wav", 0⟩ "a.wav" = (false, "File is empty") ∧
    validate_audio_file ⟨true, true, ".wav", 104857601⟩ "a.wav" =
      (false, sizeExceedsMsg 104857601) ∧
    (validate_audio_file ⟨true, true, ".txt", 0⟩ "a.txt").1 = false :=
  ⟨(validate_audio_file_spec ⟨true, true, ".MP3", 500⟩ "a.MP3").1 rfl rfl
      (by decide) (by decide) (by decide),
   (validate_audio_file_spec ⟨true, true, ".txt", 500⟩ "a.txt").2.1 rfl rfl (by decide),
   (validate_audio_file_spec ⟨true, true, ".wav", 0⟩ "a.wav").2.2.1 rfl rfl
      (by decide) rfl,
   (validate_audio_file_spec ⟨true, true, ".wav", 104857601⟩ "a.wav").2.2.2.1 rfl rfl
      (by decide) (by decide),
   (validate_audio_file_spec ⟨true, true, ".txt", 0⟩ "a.txt").2.2.2.2 rfl rfl
      (Or.inr (Or.inl rfl))⟩

/-- The trace of `transcribe_with_whisper` never contains a
captions-API call. -/
theorem transcribe_with_whisper_no_captions (env : YTEnv) (hasAudioService : Bool)
    (video_id : String) (language : Option String)
    (start_time end_time : Option String) :
    ((transcribe_with_whisper env hasAudioService video_id language
      start_time end_time).2.all (fun c => !c.isCaptions)) = true := by
  unfold transcribe_with_whisper
  cases hasAudioService with
  | false => rfl
  | true =>
    simp only [Bool.not_true, Bool.false_eq_true, if_false]
    cases hd : env.downloadAudio video_id start_time end_time with
    | error e => simp [ExtCall.isCaptions]
    | ok p =>
      cases p with
      | mk audio_file video_title =>
        cases ht : env.transcribeFile audio_file language with
        | error e => simp [ht, ExtCall.isCaptions]
        | ok result => simp [ht, ExtCall.isCaptions]

/-- C10: the final provider's `get_transcript` is insensitive to
`use_fallback` — runs differing only in that flag are equal (same result
and same external-call trace) — and the captions API is never consulted
on the taken path. -/
theorem get_transcript_ignores_use_fallback (env : YTEnv)
    (hasAudioService : Bool) (video_id : String)
    (languages : Option (List String)) (start_time end_time : Option String) :
    yt_get_transcript env hasAudioService video_id languages true
        start_time end_time =
      yt_get_transcript env hasAudioService video_id languages false
        start_time end_time ∧
    ((yt_get_transcript env hasAudioService video_id languages true
        start_time end_time).2.all (fun c => !c.isCaptions)) = true := by
  refine ⟨rfl, ?_⟩
  unfold yt_get_transcript
  cases hasAudioService with
  | false => rfl
  | true =>
    simp only [Bool.not_true, Bool.false_eq_true, if_false]
    have h := transcribe_with_whisper_no_captions env true video_id
      (match (languages.getD ["en"]) with
       | [] => none
       | l :: _ => if l ≠ "en" then some l else none) start_time end_time
    cases hr : (transcribe_with_whisper env true video_id
      (match (languages.getD ["en"]) with
       | [] => none
       | l :: _ => if l ≠ "en" then some l else none) start_time end_time) with
    | mk r1 trace =>
      rw [hr] at h
      cases r1 with
      | error e => simpa using h
      | ok result => simpa using h

/-- Rebuilding a string from its character list is the identity. -/
theorem mk_toList (s : String) : String.mk s.toList = s := rfl

/-- Stripping enumeration markers from a line whose first character is
not a marker leaves the line unchanged. -/
theorem pyLstripEnum_of_head (l : String) (c : Char) (cs : List Char)
    (hl : l.toList = c :: cs) (hc : enumStripChars.contains c = false) :
    pyLstripEnum l = l := by
  unfold pyLstripEnum
  rw [hl, List.dropWhile_cons]
  simp only [hc, Bool.false_eq_true, if_false]
  rw [← hl]
  exact mk_toList l

/-- C4 counterexample: the clean 10-character line `"abcdefghij"` (no
leading numerals, no heading marker) does not survive
`generate_key_points` parsing — it is dropped by the strict
`len(point) > 10` filter, so it does not become one key point. -/
theorem key_points_ten_char_line_dropped :
    ("abcdefghij".length = 10) ∧
    generate_key_points_parse "abcdefghij" = [] ∧
    generate_key_points_parse "abcdefghij" ≠ ["abcdefghij"] := by
  refine ⟨by decide, by decide, by decide⟩

/-- C4 amended: `generate_key_points` parsing is the identity on
responses all of whose lines are clean sentences strictly longer than
10 characters (at least 11) with no leading enumeration characters:
each line becomes exactly one key point, unchanged. -/
theorem extract_key_points_parse_clean (response : String)
    (h : ∀ line ∈ pySplit '\n' response, cleanLine line = true) :
    generate_key_points_parse response = pySplit '\n' response := by
  have hparts : ∀ line ∈ pySplit '\n' response,
      pyStrip line = line ∧ line ≠ "" ∧ pyStartsWith "#" line = false ∧
      pyLstripEnum line = line ∧ line.length > 10 := by
    intro l hl
    have hc := h l hl
    simp only [cleanLine, Bool.and_eq_true, beq_iff_eq, decide_eq_true_eq,
      Bool.not_eq_true'] at hc
    obtain ⟨⟨⟨⟨hstrip, hne⟩, hhash⟩, hhead⟩, hlen⟩ := hc
    refine ⟨hstrip, hne, hhash, ?_, hlen⟩
    cases hL : l.toList with
    | nil => rw [hL] at hhead; exact absurd hhead (by decide)
    | cons c cs =>
      rw [hL] at hhead
      exact pyLstripEnum_of_head l c cs hL (by simpa using hhead)
  unfold generate_key_points_parse
  have h1 : (pySplit '\n' response).filter
      (fun line => pyStrip line ≠ "" && !(pyStartsWith "#" (pyStrip line))) =
      pySplit '\n' response := by
    apply List.filter_eq_self.mpr
    intro l hl
    obtain ⟨hstrip, hne, hhash, _, _⟩ := hparts l hl
    rw [hstrip]
    simp [hne, hhash]
  rw [h1]
  have h2 : (pySplit '\n' response).map
      (fun line => pyStrip (pyLstripEnum (pyStrip line))) =
      pySplit '\n' response := by
    rw [List.map_congr_left (g := id), List.map_id]
    intro l hl
    obtain ⟨hstrip, _, _, hlstrip, _⟩ := hparts l hl
    simp only [id]
    rw [hstrip, hlstrip, hstrip]
  rw [h2]
  apply List.filter_eq_self.mpr
  intro l hl
  obtain ⟨_, _, _, _, hlen⟩ := hparts l hl
  simpa using hlen

/-- Witness for C4 amended: a two-line response of clean sentences
longer than 10 characters parses to exactly those lines. -/
theorem extract_key_points_parse_clean_witness :
    generate_key_points_parse "This is a clean sentence\nHere is another clean line" =
      pySplit '\n' "This is a clean sentence\nHere is another clean line" :=
  extract_key_points_parse_clean
    "This is a clean sentence\nHere is another clean line" (by decide)

/-- Splitting a list at a separator absent from both left parts is
unambiguous. -/
theorem underscore_split : ∀ {a c : List Char} {b d : List Char},
    '_' ∉ a → '_' ∉ c → a ++ '_' :: b = c ++ '_' :: d → a = c ∧ b = d := by
  intro a
  induction a with
  | nil =>
    intro c b d _ hc h
    cases c with
    | nil => simpa using h
    | cons y cs =>
      simp only [List.nil_append, List.cons_append, List.cons.injEq] at h
      obtain ⟨h1, _⟩ := h
      subst h1
      exact absurd (List.mem_cons_self _ _) hc
  | cons x xs ih =>
    intro c b d ha hc h
    cases c with
    | nil =>
      simp only [List.cons_append, List.nil_append, List.cons.injEq] at h
      obtain ⟨h1, _⟩ := h
      subst h1
      exact absurd (List.mem_cons_self _ _) ha
    | cons y cs =>
      simp only [List.cons_append, List.cons.injEq] at h
      obtain ⟨h1, h2⟩ := h
      have ha' : '_' ∉ xs := fun hm => ha (List.mem_cons_of_mem _ hm)
      have hc' : '_' ∉ cs := fun hm => hc (List.mem_cons_of_mem _ hm)
      obtain ⟨e1, e2⟩ := ih ha' hc' h2
      subst h1
      exact ⟨by rw [e1], e2⟩

/-- The cache key `f"{model_size}_{device}"` determines the pair when
the model size contains no underscore. -/
theorem cache_key_inj (t1 d1 t2 d2 : String)
    (h1 : '_' ∉ t1.data) (h2 : '_' ∉ t2.data)
    (h : t1 ++ "_" ++ d1 = t2 ++ "_" ++ d2) : t1 = t2 ∧ d1 = d2 := by
  have hd : t1.data ++ '_' :: d1.data = t2.data ++ '_' :: d2.data := by
    have hcong := congrArg String.data h
    simpa [String.data_append] using hcong
  obtain ⟨e1, e2⟩ := underscore_split h1 h2 hd
  exact ⟨String.ext e1, String.ext e2⟩

/-- No supported model size contains an underscore. -/
theorem valid_models_no_underscore : ∀ t ∈ valid_models, '_' ∉ t.data := by decide

/-- A second `load_model` call with the same arguments returns the first
call's handle and leaves the cache state unchanged. -/
theorem load_model_second_call (model_size device : String) (s : WhisperState) :
    (load_model model_size device (load_model model_size device s).2).1 =
      (load_model model_size device s).1 ∧
    (load_model model_size device (load_model model_size device s).2).2 =
      (load_model model_size device s).2 := by
  unfold load_model
  cases h : s.cache.lookup (model_size ++ "_" ++ device) with
  | some m => simp [h]
  | none => simp [h, List.lookup_cons]

/-- `load_model` on a cache hit returns the cached handle unchanged. -/
theorem load_model_hit (t0 d0 : String) (m : Nat) (s : WhisperState)
    (hl : s.cache.lookup (t0 ++ "_" ++ d0) = some m) :
    load_model t0 d0 s = (m, s) := by
  unfold load_model; simp [hl]

/-- `load_model` on a cache miss performs the load, logs it, and caches
the fresh handle. -/
theorem load_model_miss (t0 d0 : String) (s : WhisperState)
    (hl : s.cache.lookup (t0 ++ "_" ++ d0) = none) :
    load_model t0 d0 s = (s.loadLog.length,
      ⟨(t0 ++ "_" ++ d0, s.loadLog.length) :: s.cache,
        s.loadLog ++ [(t0, d0)]⟩) := by
  unfold load_model; simp [hl]

/-- Over any sequence of service constructions and `load_model` calls
with supported tiers, starting from a state satisfying the cache
invariant, the number of `whisper.load_model` invocations for a given
supported pair grows by one exactly when the pair occurs in the calls
and had not been loaded before. -/
theorem runLoad_count (calls : List (String × String)) :
    ∀ (s : WhisperState), (∀ p ∈ calls, p.1 ∈ valid_models) → CacheInv s →
    ∀ t d : String, t ∈ valid_models →
    (calls.foldl (fun s p => (load_model (init_model_size p.1) p.2 s).2) s).loadLog.count (t, d) =
      s.loadLog.count (t, d) +
        (if (t, d) ∈ calls ∧ (t, d) ∉ s.loadLog then 1 else 0) := by
  induction calls with
  | nil => intro s _ _ t d _; simp
  | cons p rest ih =>
    intro s hcalls hs t d ht
    obtain ⟨t0, d0⟩ := p
    have ht0 : t0 ∈ valid_models := hcalls (t0, d0) (List.mem_cons_self _ _)
    have hrest : ∀ q ∈ rest, q.1 ∈ valid_models :=
      fun q hq => hcalls q (List.mem_cons_of_mem _ hq)
    have hinit : init_model_size t0 = t0 := by simp [init_model_size, ht0]
    simp only [List.foldl_cons, hinit]
    cases hl : s.cache.lookup (t0 ++ "_" ++ d0) with
    | some m =>
      rw [load_model_hit t0 d0 m s hl]
      have hmem : (t0, d0) ∈ s.loadLog := by
        have := (hs.2 t0 d0 ht0).mp
        rw [hl] at this
        exact this rfl
      rw [ih s hrest hs t d ht]
      congr 1
      have hcond : ((t, d) ∈ (t0, d0) :: rest ∧ (t, d) ∉ s.loadLog) ↔
          ((t, d) ∈ rest ∧ (t, d) ∉ s.loadLog) := by
        constructor
        · rintro ⟨hin, hout⟩
          rcases List.mem_cons.mp hin with heq | hin'
          · exact absurd (heq ▸ hmem) hout
          · exact ⟨hin', hout⟩
        · rintro ⟨hin, hout⟩
          exact ⟨List.mem_cons_of_mem _ hin, hout⟩
      rw [if_congr hcond rfl rfl]
    | none =>
      have hnot0 : (t0, d0) ∉ s.loadLog := by
        intro hm
        have := (hs.2 t0 d0 ht0).mpr hm
        rw [hl] at this
        simp at this
      rw [load_model_miss t0 d0 s hl]
      set s' : WhisperState :=
        ⟨(t0 ++ "_" ++ d0, s.loadLog.length) :: s.cache,
          s.loadLog ++ [(t0, d0)]⟩ with hs'
      have hinv' : CacheInv s' := by
        constructor
        · intro q hq
          rcases List.mem_append.mp hq with hq' | hq'
          · exact hs.1 q hq'
          · rcases List.mem_cons.mp hq' with hq'' | hq''
            · rw [hq'']; exact ht0
            · simp at hq''
        · intro t' d' ht'
          by_cases hk : (t' ++ "_" ++ d') = (t0 ++ "_" ++ d0)
          · obtain ⟨e1, e2⟩ := cache_key_inj t' d' t0 d0
              (valid_models_no_underscore t' ht')
              (valid_models_no_underscore t0 ht0) hk
            subst e1; subst e2
            simp [hs', List.lookup_cons]
          · have hne : ((t' ++ "_" ++ d') == (t0 ++ "_" ++ d0)) = false :=
              beq_false_of_ne hk
            have hpair : (t', d') ≠ (t0, d0) := by
              intro hpq
              apply hk
              rw [Prod.mk.injEq] at hpq
              rw [hpq.1, hpq.2]
            constructor
            · intro hsome
              rw [hs'] at hsome
              simp only [List.lookup_cons, hne] at hsome
              have := (hs.2 t' d' ht').mp hsome
              exact List.mem_append.mpr (Or.inl this)
            · intro hmem
              rcases List.mem_append.mp hmem with hm | hm
              · have := (hs.2 t' d' ht').mpr hm
                rw [hs']
                simpa [List.lookup_cons, hne] using this
              · rcases List.mem_cons.mp hm with hm' | hm'
                · exact absurd hm' hpair
                · simp at hm'
      rw [ih s' hrest hinv' t d ht]
      have hlog' : s'.loadLog = s.loadLog ++ [(t0, d0)] := rfl
      by_cases hp : (t, d) = (t0, d0)
      · rw [Prod.mk.injEq] at hp
        obtain ⟨hp1, hp2⟩ := hp
        subst hp1; subst hp2
        have hcount' : s'.loadLog.count (t, d) = s.loadLog.count (t, d) + 1 := by
          rw [hlog', List.count_append, List.count_singleton]
          simp
        have hmem' : (t, d) ∈ s'.loadLog := by
          rw [hlog']
          exact List.mem_append.mpr (Or.inr (List.mem_cons_self _ _))
        rw [hcount']
        have hif1 : (if (t, d) ∈ rest ∧ (t, d) ∉ s'.loadLog then 1 else 0) = 0 := by
          simp [hmem']
        have hif2 : (if (t, d) ∈ (t, d) :: rest ∧ (t, d) ∉ s.loadLog then 1 else 0) = 1 := by
          simp [List.mem_cons_self, hnot0]
        omega
      · have hcount' : s'.loadLog.count (t, d) = s.loadLog.count (t, d) := by
          rw [hlog', List.count_append, List.count_singleton]
          have : ((t0, d0) == (t, d)) = false :=
            beq_false_of_ne (fun h => hp h.symm)
          simp [this]
        have hmem_iff : (t, d) ∈ s'.loadLog ↔ (t, d) ∈ s.loadLog := by
          rw [hlog', List.mem_append]
          constructor
          · rintro (hm | hm)
            · exact hm
            · rcases List.mem_cons.mp hm with hm' | hm'
              · exact absurd hm' hp
              · simp at hm'
          · exact Or.inl
        have hmemiff2 : (t, d) ∈ (t0, d0) :: rest ↔ (t, d) ∈ rest := by
          rw [List.mem_cons]
          constructor
          · rintro (h | h)
            · exact absurd h hp
            · exact h
          · exact Or.inr
        rw [hcount']
        congr 1
        exact if_congr (and_congr hmemiff2.symm (not_congr hmem_iff)) rfl rfl

/-- C2: for every supported model tier and device, a second `load_model`
call with the same pair returns the identical cached handle, and over
any process lifetime of `load_model` calls with supported tiers the
expensive `whisper.load_model` routine runs exactly once per distinct
`(tier, device)` pair that occurs (and never for pairs that do not). -/
theorem load_model_cache_spec (t d : String) (ht : t ∈ valid_models)
    (s : WhisperState) (calls : List (String × String))
    (hcalls : ∀ p ∈ calls, p.1 ∈ valid_models) :
    (load_model t d (load_model t d s).2).1 = (load_model t d s).1 ∧
    (runLoadCalls calls).loadLog.count (t, d) =
      (if (t, d) ∈ calls then 1 else 0) := by
  refine ⟨(load_model_second_call t d s).1, ?_⟩
  have hinv0 : CacheInv ⟨[], []⟩ := by
    constructor
    · intro p hp; simp at hp
    · intro t' d' _; simp [List.lookup_nil]
  have h := runLoad_count calls ⟨[], []⟩ hcalls hinv0 t d ht
  simpa [runLoadCalls] using h

/-- Witness for C2: two loads of `("base", "cpu")` return the same
handle, and a lifetime of three calls loads `("base", "cpu")` once. -/
theorem load_model_cache_spec_witness :
    (load_model "base" "cpu" (load_model "base" "cpu" ⟨[], []⟩).2).1 =
      (load_model "base" "cpu" ⟨[], []⟩).1 ∧
    (runLoadCalls [("base", "cpu"), ("base", "cpu"), ("tiny", "cpu")]).loadLog.count
      ("base", "cpu") = 1 :=
  ⟨(load_model_cache_spec "base" "cpu" (by decide) ⟨[], []⟩
      [("base", "cpu"), ("base", "cpu"), ("tiny", "cpu")] (by decide)).1,
   (load_model_cache_spec "base" "cpu" (by decide) ⟨[], []⟩
      [("base", "cpu"), ("base", "cpu"), ("tiny", "cpu")] (by decide)).2⟩

end AiTranscript
